import Mathlib

/-!
Verification of the xatlas-rs binding layer (src/lib.rs) via a shallow
embedding in Lean 4.

Modelling conventions:
- Machine integers (`u32`, `usize`) are `Nat`; a Rust `as u32` cast is an
  explicit `% 2 ^ 32`.
- `f32` values are never computed with; a value is its 32-bit pattern
  (`F32`).
- A raw pointer is identified with the storage it addresses; a nullable
  pointer is an `Option` of that storage, `none` standing for
  `std::ptr::null()`.
- A Rust panic (`unreachable!()`, integer division by zero) is `none` in
  an `Option` result.
- Engine-side buffers behind a handle are total functions `Nat → α`
  together with the count field published on the handle;
  `slice::from_raw_parts p n` is `List.ofFn` over the first `n` cells.
-/

/-- A 32-bit float treated as an opaque bit pattern (the binding layer only
copies `f32` values, never computes with them). -/
structure F32 where
  bits : Nat
deriving DecidableEq

/-- `enum MeshData` from src/lib.rs: vertex data either as tightly packed
`f32` records or as a raw byte view with an explicit stride. -/
inductive MeshData where
  | contiguous (d : List F32)
  | withStride (data : List Nat) (stride : Nat)
deriving DecidableEq

/-- `enum IndexData` from src/lib.rs: 16-bit or 32-bit index buffers. -/
inductive IndexData where
  | u16 (d : List Nat)
  | u32 (d : List Nat)
deriving DecidableEq

/-- `struct MeshDecl` from src/lib.rs. Note the source declares
`face_ignore_data: Option<bool>` — a single flag, not a per-face array. -/
structure MeshDecl where
  vertex_position_data : MeshData
  vertex_normal_data : Option MeshData
  vertex_uv_data : Option MeshData
  face_ignore_data : Option Bool
  face_material_data : Option (List Nat)
  face_vertex_count : Option (List Nat)
  index_data : Option IndexData
  face_count : Nat
  epsilon : F32
deriving DecidableEq

/-- `struct UvMeshDecl` from src/lib.rs. -/
structure UvMeshDecl where
  vertex_uv_data : Option MeshData
  face_material_data : Option (List Nat)
  index_data : Option IndexData
deriving DecidableEq

/-- `enum AddMeshError` from src/lib.rs (the structured error kinds). -/
inductive AddMeshError where
  | error
  | indexOutOfRange
  | invalidFaceVertexCount
  | invalidIndexCount
deriving DecidableEq

/-- Modelled from the spec: the engine's closed status-code set
{success, generic error, index-out-of-range, invalid face-vertex-count,
invalid index-count}. The generated bindings are not part of the repository
source; the numeric values follow the C enum declaration order. -/
def AddMeshError_Success : Nat := 0

def AddMeshError_Error : Nat := 1

def AddMeshError_IndexOutOfRange : Nat := 2

def AddMeshError_InvalidFaceVertexCount : Nat := 3

def AddMeshError_InvalidIndexCount : Nat := 4

/-- Modelled from the spec: the engine's index-format enum (16-bit / 32-bit). -/
def IndexFormat_UInt16 : Nat := 0

def IndexFormat_UInt32 : Nat := 1

/-- `fn add_mesh_error_result` from src/lib.rs: translate an engine status
code into `Result<(), AddMeshError>`; any unknown code is `unreachable!()`
(modelled as `none`). -/
def add_mesh_error_result (code : Nat) : Option (Except AddMeshError Unit) :=
  if code = AddMeshError_Success then some (Except.ok ())
  else if code = AddMeshError_Error then some (Except.error AddMeshError.error)
  else if code = AddMeshError_IndexOutOfRange then
    some (Except.error AddMeshError.indexOutOfRange)
  else if code = AddMeshError_InvalidFaceVertexCount then
    some (Except.error AddMeshError.invalidFaceVertexCount)
  else if code = AddMeshError_InvalidIndexCount then
    some (Except.error AddMeshError.invalidIndexCount)
  else none

/-- `MeshData::stride(num)` from src/lib.rs: `num * size_of::<f32>()` for
contiguous data, the stored stride otherwise. -/
def MeshData.stride (m : MeshData) (num : Nat) : Nat :=
  match m with
  | .contiguous _ => num * 4
  | .withStride _ stride => stride

/-- `MeshData::count()` from src/lib.rs: `(d.len() / 3) as u32` for
contiguous data, `data.len() as u32 / stride` otherwise. Division by a zero
stride panics (`none`). -/
def MeshData.count (m : MeshData) : Option Nat :=
  match m with
  | .contiguous d => some (d.length / 3 % 2 ^ 32)
  | .withStride data stride =>
      if stride = 0 then none else some (data.length % 2 ^ 32 / stride)

/-- `IndexData::count()` from src/lib.rs: the element count cast to `u32`. -/
def IndexData.count (d : IndexData) : Nat :=
  (match d with
   | .u16 d => d.length
   | .u32 d => d.length) % 2 ^ 32

/-- `IndexData`'s marshalled index format tag. -/
def IndexData.format (d : IndexData) : Nat :=
  match d with
  | .u16 _ => IndexFormat_UInt16
  | .u32 _ => IndexFormat_UInt32

/-- `xatlas::MeshDecl`, the fixed-layout structure handed to the engine.
Each nullable data pointer is an `Option` of the storage it addresses;
`faceIgnoreData`, when non-null, addresses the storage behind
`&bool` — a list holding exactly the referenced flags. -/
structure NativeMeshDecl where
  vertexPositionData : MeshData
  vertexNormalData : Option MeshData
  vertexUvData : Option MeshData
  indexData : Option IndexData
  faceIgnoreData : Option (List Bool)
  faceMaterialData : Option (List Nat)
  faceVertexCount : Option (List Nat)
  vertexCount : Nat
  vertexPositionStride : Nat
  vertexNormalStride : Nat
  vertexUvStride : Nat
  indexCount : Nat
  indexOffset : Nat
  faceCount : Nat
  indexFormat : Nat
  epsilon : F32
deriving DecidableEq

/-- `xatlas::UvMeshDecl`, the fixed-layout structure handed to the engine. -/
structure NativeUvMeshDecl where
  vertexUvData : Option MeshData
  indexData : Option IndexData
  faceMaterialData : Option (List Nat)
  vertexCount : Nat
  vertexStride : Nat
  indexCount : Nat
  indexOffset : Nat
  indexFormat : Nat
deriving DecidableEq

/-- The marshalling performed by `Xatlas::add_mesh_with_mesh_count_hint`
(src/lib.rs): build the native `xatlas::MeshDecl` from the structured one.
`none` is the panic raised when deriving the vertex count divides by a zero
stride. -/
def add_mesh_marshal (d : MeshDecl) : Option NativeMeshDecl :=
  match d.vertex_position_data.count with
  | none => none
  | some vc =>
      some
        { vertexPositionData := d.vertex_position_data
          vertexNormalData := d.vertex_normal_data
          vertexUvData := d.vertex_uv_data
          indexData := d.index_data
          faceIgnoreData := d.face_ignore_data.map (fun b => [b])
          faceMaterialData := d.face_material_data
          faceVertexCount := d.face_vertex_count
          vertexCount := vc
          vertexPositionStride := d.vertex_position_data.stride 3
          vertexNormalStride :=
            match d.vertex_normal_data with
            | none => 0
            | some c => c.stride 3
          vertexUvStride :=
            match d.vertex_uv_data with
            | none => 0
            | some c => c.stride 2
          indexCount :=
            match d.index_data with
            | none => 0
            | some i => i.count
          indexOffset := 0
          faceCount := d.face_count
          indexFormat :=
            match d.index_data with
            | none => IndexFormat_UInt16
            | some i => i.format
          epsilon := d.epsilon }

/-- The marshalling performed by `Xatlas::add_uv_mesh` (src/lib.rs): build
the native `xatlas::UvMeshDecl`. `none` is the panic raised when deriving
the vertex count divides by a zero stride. -/
def add_uv_mesh_marshal (d : UvMeshDecl) : Option NativeUvMeshDecl :=
  match (match d.vertex_uv_data with
         | none => some 0
         | some m => m.count) with
  | none => none
  | some vc =>
      some
        { vertexUvData := d.vertex_uv_data
          indexData := d.index_data
          faceMaterialData := d.face_material_data
          vertexCount := vc
          vertexStride :=
            match d.vertex_uv_data with
            | none => 0
            | some m => m.stride 2
          indexCount :=
            match d.index_data with
            | none => 0
            | some i => i.count
          indexOffset := 0
          indexFormat :=
            match d.index_data with
            | none => IndexFormat_UInt16
            | some i => i.format }

/-- `ChartType` output enum from src/lib.rs. -/
inductive ChartType where
  | planar
  | ortho
  | lscm
  | piecewise
  | invalid
deriving DecidableEq

/-- Modelled from the spec: the engine's chart-type codes, in C enum
declaration order (the generated bindings are not part of the repository
source). -/
def ChartType_Planar : Nat := 0

def ChartType_Ortho : Nat := 1

def ChartType_LSCM : Nat := 2

def ChartType_Piecewise : Nat := 3

def ChartType_Invalid : Nat := 4

/-- Output `Vertex` from src/lib.rs. -/
structure Vertex where
  atlas_index : Int
  chart_index : Int
  uv : F32 × F32
  xref : Nat
deriving DecidableEq

/-- Output `Chart` from src/lib.rs; `face_array` is a borrowed view,
modelled by its contents. -/
structure Chart where
  face_array : List Nat
  atlas_index : Nat
  type_ : ChartType
  material : Nat
deriving DecidableEq

/-- Output `Mesh` from src/lib.rs. -/
structure Mesh where
  index_array : List Nat
  chart_array : List Chart
  vertex_array : List Vertex
deriving DecidableEq

/-- Engine-side `xatlas::Vertex` record. -/
structure RawVertex where
  atlasIndex : Int
  chartIndex : Int
  uv : F32 × F32
  xref : Nat

/-- Engine-side `xatlas::Chart` record: a face buffer with its published
count, plus scalar fields. The buffer is a total function, read only on
`[0, faceCount)` by the binding. -/
structure RawChart where
  faceArray : Nat → Nat
  faceCount : Nat
  atlasIndex : Nat
  type_ : Nat
  material : Nat

/-- Engine-side `xatlas::Mesh` record. -/
structure RawMesh where
  chartArray : Nat → RawChart
  chartCount : Nat
  indexArray : Nat → Nat
  indexCount : Nat
  vertexArray : Nat → RawVertex
  vertexCount : Nat

/-- Engine-side `xatlas::Atlas`: the pointee of the wrapper's handle.
Nullable buffers (`utilization`, `image`) are `Option`s of their storage. -/
structure RawAtlas where
  meshes : Nat → RawMesh
  meshCount : Nat
  width : Nat
  height : Nat
  atlasCount : Nat
  chartCount : Nat
  texelsPerUnit : F32
  utilization : Option (Nat → F32)
  image : Option (Nat → Nat)

/-- `slice::from_raw_parts(p, n)`: the first `n` cells of the buffer. -/
def fromRawParts {α : Type} (buf : Nat → α) (n : Nat) : List α :=
  List.ofFn (fun i : Fin n => buf i)

/-- Map that propagates a panic (`none`) from the element translation, the
embedding of `.iter().map(..unreachable!()..).collect()`. -/
def panicMap {α β : Type} (f : α → Option β) : List α → Option (List β)
  | [] => some []
  | a :: l =>
      match f a, panicMap f l with
      | some b, some l2 => some (b :: l2)
      | _, _ => none

/-- The chart-type translation inside `Xatlas::meshes` (src/lib.rs); an
unknown code is `unreachable!()`. -/
def chartTypeOf (code : Nat) : Option ChartType :=
  if code = ChartType_Planar then some ChartType.planar
  else if code = ChartType_Ortho then some ChartType.ortho
  else if code = ChartType_LSCM then some ChartType.lscm
  else if code = ChartType_Piecewise then some ChartType.piecewise
  else if code = ChartType_Invalid then some ChartType.invalid
  else none

/-- The per-chart closure of `Xatlas::meshes` (src/lib.rs): a `Chart` whose
`face_array` view spans `chart.faceCount` entries. -/
def buildChart (c : RawChart) : Option Chart :=
  match chartTypeOf c.type_ with
  | none => none
  | some t =>
      some
        { face_array := fromRawParts c.faceArray c.faceCount
          atlas_index := c.atlasIndex
          type_ := t
          material := c.material }

/-- The per-vertex closure of `Xatlas::meshes` (src/lib.rs). -/
def buildVertex (v : RawVertex) : Vertex :=
  { atlas_index := v.atlasIndex
    chart_index := v.chartIndex
    uv := v.uv
    xref := v.xref }

/-- The per-mesh closure of `Xatlas::meshes` (src/lib.rs). -/
def buildMesh (m : RawMesh) : Option Mesh :=
  match panicMap buildChart (fromRawParts m.chartArray m.chartCount) with
  | none => none
  | some charts =>
      some
        { index_array := fromRawParts m.indexArray m.indexCount
          chart_array := charts
          vertex_array := (fromRawParts m.vertexArray m.vertexCount).map buildVertex }

/-- `Xatlas::meshes` (src/lib.rs): translate the handle's
`meshCount` raw meshes; a panic inside any translation propagates. -/
def Xatlas.meshes (s : RawAtlas) : Option (List Mesh) :=
  panicMap buildMesh (fromRawParts s.meshes s.meshCount)

/-- `Xatlas::width` (src/lib.rs). -/
def Xatlas.width (s : RawAtlas) : Nat := s.width

/-- `Xatlas::height` (src/lib.rs). -/
def Xatlas.height (s : RawAtlas) : Nat := s.height

/-- `Xatlas::atlas_count` (src/lib.rs). -/
def Xatlas.atlas_count (s : RawAtlas) : Nat := s.atlasCount

/-- `Xatlas::chart_count` (src/lib.rs). -/
def Xatlas.chart_count (s : RawAtlas) : Nat := s.chartCount

/-- `Xatlas::mesh_count` (src/lib.rs). -/
def Xatlas.mesh_count (s : RawAtlas) : Nat := s.meshCount

/-- `Xatlas::utilization` (src/lib.rs): `None` iff the handle's utilization
pointer is null, otherwise a view of `atlasCount` entries. -/
def Xatlas.utilization (s : RawAtlas) : Option (List F32) :=
  match s.utilization with
  | none => none
  | some buf => some (fromRawParts buf s.atlasCount)

/-- `Xatlas::image` (src/lib.rs): `None` iff the handle's image pointer is
null, otherwise a view of `(atlasCount * width * height) as usize` entries
(the product is `u32` arithmetic). -/
def Xatlas.image (s : RawAtlas) : Option (List Nat) :=
  match s.image with
  | none => none
  | some buf =>
      some (fromRawParts buf (s.atlasCount * s.width * s.height % 2 ^ 32))

/-- `enum ProgressCategory` from src/lib.rs (the structured phase tags). -/
inductive ProgressCategory where
  | addMesh
  | computeCharts
  | packCharts
  | buildOutputMeshes
deriving DecidableEq

/-- Modelled from the spec: the engine's progress-category codes, in C enum
declaration order (the generated bindings are not part of the repository
source). -/
def ProgressCategory_AddMesh : Nat := 0

def ProgressCategory_ComputeCharts : Nat := 1

def ProgressCategory_PackCharts : Nat := 2

def ProgressCategory_BuildOutputMeshes : Nat := 3

/-- The boxed caller closure stored behind the opaque user-data pointer
(`ProgressCallbackPointer` in src/lib.rs). -/
structure ProgressClosure where
  f : ProgressCategory → Int → Bool

/-- The category translation inside `progress_callback` (src/lib.rs); an
unknown code is `unreachable!()`. -/
def progressCategoryOf (code : Nat) : Option ProgressCategory :=
  if code = ProgressCategory_AddMesh then some ProgressCategory.addMesh
  else if code = ProgressCategory_ComputeCharts then
    some ProgressCategory.computeCharts
  else if code = ProgressCategory_PackCharts then
    some ProgressCategory.packCharts
  else if code = ProgressCategory_BuildOutputMeshes then
    some ProgressCategory.buildOutputMeshes
  else none

/-- `extern "C" fn progress_callback` from src/lib.rs: translate the
category code, call the recovered closure once with the translated category
and the given percentage, `mem::forget` the recovered box (the closure is
returned intact for the next invocation), and pass the closure's boolean
through. The result records the continuation signal, the list of closure
invocations made (category, percentage), and the closure as left behind the
user-data pointer. An unknown code is `unreachable!()` (`none`). -/
def progress_callback (category : Nat) (progress : Int)
    (user_data : ProgressClosure) :
    Option (Bool × List (ProgressCategory × Int) × ProgressClosure) :=
  match progressCategoryOf category with
  | none => none
  | some c => some (user_data.f c progress, [(c, progress)], user_data)

/-- The wrapper state: the engine handle (an address, abstract here) and
the stored callback box (`struct Xatlas` in src/lib.rs). -/
structure XatlasState where
  handle : Nat
  progress_callback : Option ProgressClosure

/-- One entry of the trace of engine entry points invoked by the wrapper,
each recording the handle it was passed. -/
inductive EngineCall where
  | create (h : Nat)
  | addMesh (h : Nat)
  | addUvMesh (h : Nat)
  | addMeshJoin (h : Nat)
  | computeCharts (h : Nat)
  | packCharts (h : Nat)
  | generate (h : Nat)
  | setProgressCallback (h : Nat)
  | destroy (h : Nat)
deriving DecidableEq

/-- `ChartOptions` from src/lib.rs (configuration only; carried opaquely by
the operations below). -/
structure ChartOptions where
  param_func : Option Nat
  max_chart_area : F32
  max_boundary_length : F32
  normal_deviation_weight : F32
  roundness_weight : F32
  straightness_weight : F32
  normal_seam_weight : F32
  texture_seam_weight : F32
  max_cost : F32
  max_iterations : Nat
  use_input_mesh_uvs : Bool
  fix_winding : Bool

/-- `PackOptions` from src/lib.rs. -/
structure PackOptions where
  max_chart_size : Nat
  padding : Nat
  texels_per_unit : F32
  resolution : Nat
  bilinear : Bool
  block_align : Bool
  brute_force : Bool
  create_image : Bool
  rotate_charts_to_axis : Bool
  rotate_charts : Bool

/-- The mutating operations of the wrapper API (`&mut self` methods of
`impl Xatlas` in src/lib.rs). -/
inductive Op where
  | addMesh (d : MeshDecl) (hint : Nat)
  | addUvMesh (d : UvMeshDecl)
  | addMeshJoin
  | computeCharts (o : ChartOptions)
  | packCharts (o : PackOptions)
  | generate (co : ChartOptions) (po : PackOptions)
  | setProgressCallback (f : ProgressClosure)

/-- `Xatlas::new` (src/lib.rs): the handle field is initialized from the
engine's create entry point (whose fresh address is `h`); no callback is
stored yet. -/
def Xatlas.new (h : Nat) : XatlasState :=
  { handle := h, progress_callback := none }

/-- One wrapper method call: the updated wrapper state and the engine entry
points invoked, or `none` when marshalling panics (the panic unwinds before
any engine call). Mirrors each `&mut self` method of src/lib.rs: none of
them writes the handle field; only `set_progress_callback` writes the
callback field. -/
def runOp (w : XatlasState) : Op → Option (XatlasState × List EngineCall)
  | .addMesh d _hint =>
      (add_mesh_marshal d).map fun _ => (w, [EngineCall.addMesh w.handle])
  | .addUvMesh d =>
      (add_uv_mesh_marshal d).map fun _ => (w, [EngineCall.addUvMesh w.handle])
  | .addMeshJoin => some (w, [EngineCall.addMeshJoin w.handle])
  | .computeCharts _ => some (w, [EngineCall.computeCharts w.handle])
  | .packCharts _ => some (w, [EngineCall.packCharts w.handle])
  | .generate _ _ => some (w, [EngineCall.generate w.handle])
  | .setProgressCallback f =>
      some ({ w with progress_callback := some f },
            [EngineCall.setProgressCallback w.handle])

/-- Run a sequence of wrapper method calls; a panic stops the sequence (the
remaining calls never run) but the wrapper value survives for unwinding. -/
def runOps (w : XatlasState) : List Op → XatlasState × List EngineCall
  | [] => (w, [])
  | op :: ops =>
      match runOp w op with
      | none => (w, [])
      | some (w2, t) =>
          let r := runOps w2 ops
          (r.1, t ++ r.2)

/-- `impl Drop for Xatlas` (src/lib.rs): invoke the engine's destroy entry
point on the stored handle. -/
def Xatlas.drop (w : XatlasState) : List EngineCall :=
  [EngineCall.destroy w.handle]

/-- A whole wrapper lifetime: creation, any sequence of method calls
(possibly cut short by a panic), and the `Drop` at scope end — the engine
calls it performs, in order. -/
def session (h : Nat) (ops : List Op) : List EngineCall :=
  EngineCall.create h ::
    ((runOps (Xatlas.new h) ops).2 ++ Xatlas.drop (runOps (Xatlas.new h) ops).1)

/-- A concrete engine state used to instantiate the theorems below: one
mesh with one chart (type code 0), three indices, one vertex; width and
height deliberately different; utilization and image buffers present. -/
def atlas0 : RawAtlas :=
  { meshes := fun _ =>
      { chartArray := fun _ =>
          { faceArray := fun _ => 5
            faceCount := 1
            atlasIndex := 0
            type_ := 0
            material := 0 }
        chartCount := 1
        indexArray := fun _ => 7
        indexCount := 3
        vertexArray := fun _ =>
          { atlasIndex := 0, chartIndex := 0, uv := (⟨0⟩, ⟨0⟩), xref := 2 }
        vertexCount := 1 }
    meshCount := 1
    width := 4
    height := 8
    atlasCount := 1
    chartCount := 1
    texelsPerUnit := ⟨0⟩
    utilization := some (fun _ => ⟨3⟩)
    image := some (fun _ => 9) }

/-- The output `Xatlas.meshes` produces on `atlas0`. -/
def meshes0 : List Mesh :=
  [{ index_array := [7, 7, 7]
     chart_array :=
       [{ face_array := [5]
          atlas_index := 0
          type_ := ChartType.planar
          material := 0 }]
     vertex_array :=
       [{ atlas_index := 0, chart_index := 0, uv := (⟨0⟩, ⟨0⟩), xref := 2 }] }]

/-- A minimal mesh declaration: empty contiguous positions, every optional
field absent. -/
def declA : MeshDecl :=
  { vertex_position_data := MeshData.contiguous []
    vertex_normal_data := none
    vertex_uv_data := none
    face_ignore_data := none
    face_material_data := none
    face_vertex_count := none
    index_data := none
    face_count := 0
    epsilon := ⟨0⟩ }

/-- The native structure `add_mesh_marshal` produces on `declA`. -/
def ndA : NativeMeshDecl :=
  { vertexPositionData := MeshData.contiguous []
    vertexNormalData := none
    vertexUvData := none
    indexData := none
    faceIgnoreData := none
    faceMaterialData := none
    faceVertexCount := none
    vertexCount := 0
    vertexPositionStride := 12
    vertexNormalStride := 0
    vertexUvStride := 0
    indexCount := 0
    indexOffset := 0
    faceCount := 0
    indexFormat := 0
    epsilon := ⟨0⟩ }

/-- A mesh declaration with a present face-ignore flag and two faces. -/
def declC5 : MeshDecl :=
  { declA with face_ignore_data := some true, face_count := 2 }

/-- A UV-mesh declaration whose UV data is six tightly packed floats, i.e.
three 2-float UV records. -/
def uvDeclC3 : UvMeshDecl :=
  { vertex_uv_data :=
      some (MeshData.contiguous [⟨0⟩, ⟨1⟩, ⟨2⟩, ⟨3⟩, ⟨4⟩, ⟨5⟩])
    face_material_data := none
    index_data := none }

/-- A mesh declaration whose normal data has a zero stride while the
position data is well-formed. -/
def declC10 : MeshDecl :=
  { declA with vertex_normal_data := some (MeshData.withStride [] 0) }

/-- A mesh declaration whose position data has a zero stride. -/
def declPos0 : MeshDecl :=
  { declA with vertex_position_data := MeshData.withStride [] 0 }

/-- A concrete progress closure: continue iff the percentage is below 50. -/
def closure0 : ProgressClosure :=
  { f := fun _ p => decide (p < 50) }

/-- Whether a trace entry is the engine's create entry point. -/
def EngineCall.isCreate : EngineCall → Bool
  | .create _ => true
  | _ => false

/-- Whether a trace entry is the engine's destroy entry point. -/
def EngineCall.isDestroy : EngineCall → Bool
  | .destroy _ => true
  | _ => false

/-- The engine status code each structured error kind corresponds to (the
inverse direction of the round trip). -/
def addMeshErrorCode : AddMeshError → Nat
  | .error => AddMeshError_Error
  | .indexOutOfRange => AddMeshError_IndexOutOfRange
  | .invalidFaceVertexCount => AddMeshError_InvalidFaceVertexCount
  | .invalidIndexCount => AddMeshError_InvalidIndexCount

theorem panicMap_length {α β : Type} (f : α → Option β) :
    ∀ {l : List α} {l2 : List β}, panicMap f l = some l2 → l2.length = l.length := by
  intro l
  induction l with
  | nil =>
      intro l2 h
      simp only [panicMap, Option.some.injEq] at h
      subst h
      rfl
  | cons a t ih =>
      intro l2 h
      unfold panicMap at h
      cases hfa : f a with
      | none => rw [hfa] at h; exact absurd h (by simp)
      | some b =>
          cases hr : panicMap f t with
          | none => rw [hfa, hr] at h; exact absurd h (by simp)
          | some t2 =>
              rw [hfa, hr] at h
              simp only [Option.some.injEq] at h
              subst h
              simp [ih hr]

theorem panicMap_get {α β : Type} (f : α → Option β) :
    ∀ {l : List α} {l2 : List β}, panicMap f l = some l2 →
      ∀ i (hi : i < l.length) (hi2 : i < l2.length),
        f (l.get ⟨i, hi⟩) = some (l2.get ⟨i, hi2⟩) := by
  intro l
  induction l with
  | nil => intro l2 h i hi hi2; exact absurd hi (by simp)
  | cons a t ih =>
      intro l2 h i hi hi2
      unfold panicMap at h
      cases hfa : f a with
      | none => rw [hfa] at h; exact absurd h (by simp)
      | some b =>
          cases hr : panicMap f t with
          | none => rw [hfa, hr] at h; exact absurd h (by simp)
          | some t2 =>
              rw [hfa, hr] at h
              simp only [Option.some.injEq] at h
              subst h
              cases i with
              | zero => simpa using hfa
              | succ n =>
                  exact ih hr n (Nat.lt_of_succ_lt_succ hi) (Nat.lt_of_succ_lt_succ hi2)

theorem fromRawParts_length {α : Type} (buf : Nat → α) (n : Nat) :
    (fromRawParts buf n).length = n :=
  List.length_ofFn _

theorem fromRawParts_get {α : Type} (buf : Nat → α) (n i : Nat)
    (h : i < (fromRawParts buf n).length) :
    (fromRawParts buf n).get ⟨i, h⟩ = buf i := by
  simp [fromRawParts, List.get_ofFn]

/-- A status code mapping to a structured error determines the code: the
inverse direction of the round trip. -/
theorem add_mesh_error_result_inv (c : Nat) (e : AddMeshError)
    (h : add_mesh_error_result c = some (Except.error e)) : c = addMeshErrorCode e := by
  unfold add_mesh_error_result at h
  split_ifs at h with h0 h1 h2 h3 h4
  · exact absurd h (by simp)
  · simp only [Option.some.injEq, Except.error.injEq] at h
    subst h
    simpa [addMeshErrorCode] using h1
  · simp only [Option.some.injEq, Except.error.injEq] at h
    subst h
    simpa [addMeshErrorCode] using h2
  · simp only [Option.some.injEq, Except.error.injEq] at h
    subst h
    simpa [addMeshErrorCode] using h3
  · simp only [Option.some.injEq, Except.error.injEq] at h
    subst h
    simpa [addMeshErrorCode] using h4

/-- C1: `add_mesh_error_result` maps the success code to `Ok(())`, maps each
of the four non-success engine status codes to a distinct structured error
kind (distinct codes never collide on the same kind), and panics on every
integer status code outside the closed five-element set. -/
theorem C1_status_code_round_trip :
    add_mesh_error_result AddMeshError_Success = some (Except.ok ()) ∧
    add_mesh_error_result AddMeshError_Error = some (Except.error AddMeshError.error) ∧
    add_mesh_error_result AddMeshError_IndexOutOfRange =
      some (Except.error AddMeshError.indexOutOfRange) ∧
    add_mesh_error_result AddMeshError_InvalidFaceVertexCount =
      some (Except.error AddMeshError.invalidFaceVertexCount) ∧
    add_mesh_error_result AddMeshError_InvalidIndexCount =
      some (Except.error AddMeshError.invalidIndexCount) ∧
    (∀ c1 c2 e1 e2, add_mesh_error_result c1 = some (Except.error e1) →
      add_mesh_error_result c2 = some (Except.error e2) → c1 ≠ c2 → e1 ≠ e2) ∧
    (∀ c, c ≠ AddMeshError_Success → c ≠ AddMeshError_Error →
      c ≠ AddMeshError_IndexOutOfRange → c ≠ AddMeshError_InvalidFaceVertexCount →
      c ≠ AddMeshError_InvalidIndexCount → add_mesh_error_result c = none) := by
  refine ⟨rfl, rfl, rfl, rfl, rfl, ?_, ?_⟩
  · intro c1 c2 e1 e2 h1 h2 hc he
    apply hc
    rw [add_mesh_error_result_inv c1 e1 h1, add_mesh_error_result_inv c2 e2 h2, he]
  · intro c hA hB hC hD hE
    unfold add_mesh_error_result
    split_ifs <;> first | rfl | contradiction

/-- C1 witness: the translation panics at the concrete unknown code 9. -/
theorem C1_status_code_round_trip_witness : add_mesh_error_result 9 = none :=
  C1_status_code_round_trip.2.2.2.2.2.2 9 (by decide) (by decide) (by decide)
    (by decide) (by decide)

/-- C2: whenever `meshes()` returns, it returns exactly `mesh_count()`
output meshes; each mesh's index, chart and vertex views have the lengths
the handle publishes for that mesh, and each chart's face view has that
chart's published face count; a present `utilization()` view has length
`atlas_count()`, and a present `image()` view has length
`atlas_count() * width() * height()` (u32 arithmetic). -/
theorem C2_output_view_extents (s : RawAtlas) (ms : List Mesh)
    (hm : Xatlas.meshes s = some ms) :
    ms.length = Xatlas.mesh_count s ∧
    (∀ i (hi : i < ms.length),
      (ms.get ⟨i, hi⟩).index_array.length = (s.meshes i).indexCount ∧
      (ms.get ⟨i, hi⟩).chart_array.length = (s.meshes i).chartCount ∧
      (ms.get ⟨i, hi⟩).vertex_array.length = (s.meshes i).vertexCount ∧
      (∀ j (hj : j < (ms.get ⟨i, hi⟩).chart_array.length),
        ((ms.get ⟨i, hi⟩).chart_array.get ⟨j, hj⟩).face_array.length =
          ((s.meshes i).chartArray j).faceCount)) ∧
    (∀ u, Xatlas.utilization s = some u → u.length = Xatlas.atlas_count s) ∧
    (∀ img, Xatlas.image s = some img →
      img.length = Xatlas.atlas_count s * Xatlas.width s * Xatlas.height s % 2 ^ 32) := by
  have hlen : ms.length = s.meshCount := by
    have := panicMap_length buildMesh hm
    rwa [fromRawParts_length] at this
  refine ⟨hlen, ?_, ?_, ?_⟩
  · intro i hi
    have hi' : i < (fromRawParts s.meshes s.meshCount).length := by
      rw [fromRawParts_length]
      rw [hlen] at hi
      exact hi
    have hb := panicMap_get buildMesh hm i hi' hi
    rw [fromRawParts_get] at hb
    unfold buildMesh at hb
    cases hc : panicMap buildChart
        (fromRawParts (s.meshes i).chartArray (s.meshes i).chartCount) with
    | none => rw [hc] at hb; exact absurd hb (by simp)
    | some charts =>
        rw [hc] at hb
        simp only [Option.some.injEq] at hb
        have hclen : charts.length = (s.meshes i).chartCount := by
          have := panicMap_length buildChart hc
          rwa [fromRawParts_length] at this
        rw [← hb]
        refine ⟨fromRawParts_length _ _, hclen, ?_, ?_⟩
        · simp only [List.length_map]
          exact fromRawParts_length _ _
        · intro j hj
          have hj' : j < (fromRawParts (s.meshes i).chartArray
              (s.meshes i).chartCount).length := by
            rw [fromRawParts_length, ← hclen]
            exact hj
          have hcj := panicMap_get buildChart hc j hj' hj
          rw [fromRawParts_get] at hcj
          unfold buildChart at hcj
          cases ht : chartTypeOf ((s.meshes i).chartArray j).type_ with
          | none => rw [ht] at hcj; exact absurd hcj (by simp)
          | some t =>
              rw [ht] at hcj
              simp only [Option.some.injEq] at hcj
              rw [← hcj]
              exact fromRawParts_length _ _
  · intro u hu
    unfold Xatlas.utilization at hu
    cases hs : s.utilization with
    | none => rw [hs] at hu; exact absurd hu (by simp)
    | some buf =>
        rw [hs] at hu
        simp only [Option.some.injEq] at hu
        rw [← hu]
        exact fromRawParts_length _ _
  · intro img himg
    unfold Xatlas.image at himg
    cases hs : s.image with
    | none => rw [hs] at himg; exact absurd himg (by simp)
    | some buf =>
        rw [hs] at himg
        simp only [Option.some.injEq] at himg
        rw [← himg]
        exact fromRawParts_length _ _

/-- C2 witness: on the concrete state `atlas0`, `meshes()` returns
`meshes0` and its length matches the published mesh count. -/
theorem C2_output_view_extents_witness : meshes0.length = Xatlas.mesh_count atlas0 :=
  (C2_output_view_extents atlas0 meshes0 (by decide)).1

/-- C3: evaluation at the failing input. For a contiguous UV buffer of six
floats (three 2-float UV records), `add_uv_mesh` marshals the vertex stride
as 8 bytes as specified, but marshals the vertex count as `6 / 3 = 2`
(`MeshData::count` hard-codes the 3-wide record divisor), not the
`6 / 2 = 3` records the specification requires. -/
theorem C3_uv_vertex_count_at_failing_input :
    (add_uv_mesh_marshal uvDeclC3).map (fun nd => nd.vertexStride) = some 8 ∧
    (add_uv_mesh_marshal uvDeclC3).map (fun nd => nd.vertexCount) = some 2 ∧
    (add_uv_mesh_marshal uvDeclC3).map (fun nd => nd.vertexCount) ≠ some (6 / 2) := by
  refine ⟨rfl, rfl, ?_⟩
  decide

/-- C4: in both `add_mesh` and `add_uv_mesh` marshalling, every absent
optional field becomes a null pointer and every present optional field
becomes the pointer to exactly that field's data (for the present
face-ignore flag: the storage of the single referenced `bool`). -/
theorem C4_optional_fields_marshalling :
    (∀ d nd, add_mesh_marshal d = some nd →
      ((nd.vertexNormalData = none ↔ d.vertex_normal_data = none) ∧
        ∀ x, d.vertex_normal_data = some x → nd.vertexNormalData = some x) ∧
      ((nd.vertexUvData = none ↔ d.vertex_uv_data = none) ∧
        ∀ x, d.vertex_uv_data = some x → nd.vertexUvData = some x) ∧
      ((nd.indexData = none ↔ d.index_data = none) ∧
        ∀ x, d.index_data = some x → nd.indexData = some x) ∧
      ((nd.faceIgnoreData = none ↔ d.face_ignore_data = none) ∧
        ∀ b, d.face_ignore_data = some b → nd.faceIgnoreData = some [b]) ∧
      ((nd.faceMaterialData = none ↔ d.face_material_data = none) ∧
        ∀ x, d.face_material_data = some x → nd.faceMaterialData = some x) ∧
      ((nd.faceVertexCount = none ↔ d.face_vertex_count = none) ∧
        ∀ x, d.face_vertex_count = some x → nd.faceVertexCount = some x)) ∧
    (∀ d nd, add_uv_mesh_marshal d = some nd →
      ((nd.vertexUvData = none ↔ d.vertex_uv_data = none) ∧
        ∀ x, d.vertex_uv_data = some x → nd.vertexUvData = some x) ∧
      ((nd.indexData = none ↔ d.index_data = none) ∧
        ∀ x, d.index_data = some x → nd.indexData = some x) ∧
      ((nd.faceMaterialData = none ↔ d.face_material_data = none) ∧
        ∀ x, d.face_material_data = some x → nd.faceMaterialData = some x)) := by
  constructor
  · intro d nd h
    unfold add_mesh_marshal at h
    cases hc : d.vertex_position_data.count with
    | none => rw [hc] at h; exact absurd h (by simp)
    | some vc =>
        rw [hc] at h
        simp only [Option.some.injEq] at h
        subst h
        refine ⟨⟨Iff.rfl, fun x hx => by rw [hx]⟩,
          ⟨Iff.rfl, fun x hx => by rw [hx]⟩,
          ⟨Iff.rfl, fun x hx => by rw [hx]⟩,
          ⟨?_, fun b hb => by rw [hb]; rfl⟩,
          ⟨Iff.rfl, fun x hx => by rw [hx]⟩,
          ⟨Iff.rfl, fun x hx => by rw [hx]⟩⟩
        show d.face_ignore_data.map (fun b => [b]) = none ↔ d.face_ignore_data = none
        cases d.face_ignore_data <;> simp
  · intro d nd h
    unfold add_uv_mesh_marshal at h
    cases hc : (match d.vertex_uv_data with
                | none => (some 0 : Option Nat)
                | some m => m.count) with
    | none => rw [hc] at h; exact absurd h (by simp)
    | some vc =>
        rw [hc] at h
        simp only [Option.some.injEq] at h
        subst h
        exact ⟨⟨Iff.rfl, fun x hx => by rw [hx]⟩,
          ⟨Iff.rfl, fun x hx => by rw [hx]⟩,
          ⟨Iff.rfl, fun x hx => by rw [hx]⟩⟩

/-- C4 witness: for the concrete declaration `declA` (all optional fields
absent), the marshalled normal-data pointer is null exactly as the
declaration's field is absent. -/
theorem C4_optional_fields_marshalling_witness :
    ndA.vertexNormalData = none ↔ declA.vertex_normal_data = none :=
  ((C4_optional_fields_marshalling.1) declA ndA (by decide)).1.1

/-- C5: evaluation at the failing input. For a declaration with a present
face-ignore flag and a face count of 2, the marshalled face-ignore pointer
references the storage of a single `bool` (the source field is
`Option<bool>`, not a per-face array), so the referenced storage holds 1
entry, fewer than the declared face count. -/
theorem C5_face_ignore_at_failing_input :
    (add_mesh_marshal declC5).map (fun nd => nd.faceIgnoreData) = some (some [true]) ∧
    (add_mesh_marshal declC5).map (fun nd => nd.faceIgnoreData.map List.length) =
      some (some 1) ∧
    1 < declC5.face_count := by
  refine ⟨rfl, rfl, by decide⟩

/-- C6: the progress trampoline translates each of the four known engine
category codes to the corresponding structured category, invokes the stored
closure exactly once with that category and the given percentage, returns
the closure's boolean unchanged, and leaves the same closure behind the
user-data pointer for the next invocation; every other category code
panics. -/
theorem C6_progress_trampoline :
    (∀ p cb, progress_callback ProgressCategory_AddMesh p cb =
      some (cb.f ProgressCategory.addMesh p, [(ProgressCategory.addMesh, p)], cb)) ∧
    (∀ p cb, progress_callback ProgressCategory_ComputeCharts p cb =
      some (cb.f ProgressCategory.computeCharts p,
        [(ProgressCategory.computeCharts, p)], cb)) ∧
    (∀ p cb, progress_callback ProgressCategory_PackCharts p cb =
      some (cb.f ProgressCategory.packCharts p, [(ProgressCategory.packCharts, p)], cb)) ∧
    (∀ p cb, progress_callback ProgressCategory_BuildOutputMeshes p cb =
      some (cb.f ProgressCategory.buildOutputMeshes p,
        [(ProgressCategory.buildOutputMeshes, p)], cb)) ∧
    (∀ code p cb, code ≠ ProgressCategory_AddMesh →
      code ≠ ProgressCategory_ComputeCharts → code ≠ ProgressCategory_PackCharts →
      code ≠ ProgressCategory_BuildOutputMeshes →
      progress_callback code p cb = none) := by
  refine ⟨fun p cb => rfl, fun p cb => rfl, fun p cb => rfl, fun p cb => rfl, ?_⟩
  intro code p cb hA hB hC hD
  have hcat : progressCategoryOf code = none := by
    unfold progressCategoryOf
    split_ifs <;> first | rfl | contradiction
  unfold progress_callback
  rw [hcat]

/-- C6 witness: the trampoline panics at the concrete unknown category
code 9. -/
theorem C6_progress_trampoline_witness : progress_callback 9 7 closure0 = none :=
  C6_progress_trampoline.2.2.2.2 9 7 closure0 (by decide) (by decide) (by decide)
    (by decide)

theorem runOp_spec (w : XatlasState) (op : Op) (w2 : XatlasState) (t : List EngineCall)
    (h : runOp w op = some (w2, t)) :
    w2.handle = w.handle ∧ ∀ c ∈ t, c.isCreate = false ∧ c.isDestroy = false := by
  cases op with
  | addMesh d hint =>
      simp only [runOp] at h
      cases hmm : add_mesh_marshal d with
      | none => rw [hmm] at h; exact absurd h (by simp)
      | some nd =>
          rw [hmm] at h
          simp only [Option.map_some', Option.some.injEq, Prod.mk.injEq] at h
          obtain ⟨hw, ht⟩ := h
          subst hw
          subst ht
          refine ⟨rfl, ?_⟩
          intro c hc
          simp only [List.mem_singleton] at hc
          subst hc
          exact ⟨rfl, rfl⟩
  | addUvMesh d =>
      simp only [runOp] at h
      cases hmm : add_uv_mesh_marshal d with
      | none => rw [hmm] at h; exact absurd h (by simp)
      | some nd =>
          rw [hmm] at h
          simp only [Option.map_some', Option.some.injEq, Prod.mk.injEq] at h
          obtain ⟨hw, ht⟩ := h
          subst hw
          subst ht
          refine ⟨rfl, ?_⟩
          intro c hc
          simp only [List.mem_singleton] at hc
          subst hc
          exact ⟨rfl, rfl⟩
  | addMeshJoin =>
      simp only [runOp, Option.some.injEq, Prod.mk.injEq] at h
      obtain ⟨hw, ht⟩ := h
      subst hw
      subst ht
      refine ⟨rfl, ?_⟩
      intro c hc
      simp only [List.mem_singleton] at hc
      subst hc
      exact ⟨rfl, rfl⟩
  | computeCharts o =>
      simp only [runOp, Option.some.injEq, Prod.mk.injEq] at h
      obtain ⟨hw, ht⟩ := h
      subst hw
      subst ht
      refine ⟨rfl, ?_⟩
      intro c hc
      simp only [List.mem_singleton] at hc
      subst hc
      exact ⟨rfl, rfl⟩
  | packCharts o =>
      simp only [runOp, Option.some.injEq, Prod.mk.injEq] at h
      obtain ⟨hw, ht⟩ := h
      subst hw
      subst ht
      refine ⟨rfl, ?_⟩
      intro c hc
      simp only [List.mem_singleton] at hc
      subst hc
      exact ⟨rfl, rfl⟩
  | generate co po =>
      simp only [runOp, Option.some.injEq, Prod.mk.injEq] at h
      obtain ⟨hw, ht⟩ := h
      subst hw
      subst ht
      refine ⟨rfl, ?_⟩
      intro c hc
      simp only [List.mem_singleton] at hc
      subst hc
      exact ⟨rfl, rfl⟩
  | setProgressCallback f =>
      simp only [runOp, Option.some.injEq, Prod.mk.injEq] at h
      obtain ⟨hw, ht⟩ := h
      subst ht
      refine ⟨?_, ?_⟩
      · rw [← hw]
      · intro c hc
        simp only [List.mem_singleton] at hc
        subst hc
        exact ⟨rfl, rfl⟩

theorem runOps_spec (ops : List Op) : ∀ w : XatlasState,
    (runOps w ops).1.handle = w.handle ∧
    ∀ c ∈ (runOps w ops).2, c.isCreate = false ∧ c.isDestroy = false := by
  induction ops with
  | nil =>
      intro w
      exact ⟨rfl, fun c hc => absurd hc (by simp [runOps])⟩
  | cons op ops ih =>
      intro w
      unfold runOps
      cases hop : runOp w op with
      | none => exact ⟨rfl, fun c hc => absurd hc (by simp)⟩
      | some wt =>
          obtain ⟨w2, t⟩ := wt
          have hspec := runOp_spec w op w2 t hop
          dsimp only
          constructor
          · rw [(ih w2).1, hspec.1]
          · intro c hc
            rw [List.mem_append] at hc
            cases hc with
            | inl h1 => exact hspec.2 c h1
            | inr h2 => exact (ih w2).2 c h2

/-- C7: over any sequence of wrapper method calls, the handle field keeps
the value initialized from the create entry point; the whole lifetime's
engine-call trace starts with exactly one create on that handle, ends with
exactly one destroy on that same handle, and contains no other create or
destroy call. -/
theorem C7_handle_lifecycle (h : Nat) (ops : List Op) :
    (runOps (Xatlas.new h) ops).1.handle = h ∧
    (session h ops).head? = some (EngineCall.create h) ∧
    (session h ops).getLast? = some (EngineCall.destroy h) ∧
    (session h ops).filter (fun c => c.isCreate) = [EngineCall.create h] ∧
    (session h ops).filter (fun c => c.isDestroy) = [EngineCall.destroy h] := by
  have hs := runOps_spec ops (Xatlas.new h)
  have hh : (runOps (Xatlas.new h) ops).1.handle = h := hs.1
  have htc : (runOps (Xatlas.new h) ops).2.filter (fun c => c.isCreate) = [] :=
    List.filter_eq_nil_iff.mpr (fun c hc => by simp [(hs.2 c hc).1])
  have htd : (runOps (Xatlas.new h) ops).2.filter (fun c => c.isDestroy) = [] :=
    List.filter_eq_nil_iff.mpr (fun c hc => by simp [(hs.2 c hc).2])
  refine ⟨hh, rfl, ?_, ?_, ?_⟩
  · unfold session Xatlas.drop
    rw [hh, ← List.cons_append, List.getLast?_concat]
  · unfold session Xatlas.drop
    rw [hh, List.filter_cons, List.filter_append, htc]
    rfl
  · unfold session Xatlas.drop
    rw [hh, List.filter_cons, List.filter_append, htd]
    rfl

/-- C8: `image()` is absent exactly when the handle's image pointer is
null, and `utilization()` is absent exactly when the handle's utilization
pointer is null — absence is never encoded as a present empty view. -/
theorem C8_absent_optional_outputs (s : RawAtlas) :
    (Xatlas.utilization s = none ↔ s.utilization = none) ∧
    (Xatlas.image s = none ↔ s.image = none) := by
  constructor
  · unfold Xatlas.utilization
    cases s.utilization <;> simp
  · unfold Xatlas.image
    cases s.image <;> simp

/-- C9: `width()` reads the handle's width field and `height()` reads the
handle's height field, and the two can return different values (no
aliasing of one field by both accessors). -/
theorem C9_width_height_independent :
    (∀ s, Xatlas.width s = s.width) ∧
    (∀ s, Xatlas.height s = s.height) ∧
    Xatlas.width atlas0 ≠ Xatlas.height atlas0 :=
  ⟨fun _ => rfl, fun _ => rfl, by decide⟩

/-- C10 counterexample: a declaration whose normal data is in custom-stride
form with stride 0 (and well-formed position data) does not make `add_mesh`
panic — the vertex count is never derived from normal data, so the claim's
quantification over normal and UV data fails. -/
theorem C10_zero_stride_counterexample :
    declC10.vertex_normal_data = some (MeshData.withStride [] 0) ∧
    add_mesh_marshal declC10 ≠ none := by
  refine ⟨rfl, by decide⟩

/-- C10 as amended: deriving the vertex count panics by division by zero
exactly for the data it is derived from — position data with zero stride in
`add_mesh`, UV data with zero stride in `add_uv_mesh`; for every nonzero
stride the derived count is the byte length (truncated to `u32`) divided by
the stride, truncating. -/
theorem C10_zero_stride_amended :
    (∀ d data, d.vertex_position_data = MeshData.withStride data 0 →
      add_mesh_marshal d = none) ∧
    (∀ u data, u.vertex_uv_data = some (MeshData.withStride data 0) →
      add_uv_mesh_marshal u = none) ∧
    (∀ data stride, stride ≠ 0 →
      MeshData.count (MeshData.withStride data stride) =
        some (data.length % 2 ^ 32 / stride)) := by
  refine ⟨?_, ?_, ?_⟩
  · intro d data hd
    unfold add_mesh_marshal
    rw [hd]
    rfl
  · intro u data hu
    unfold add_uv_mesh_marshal
    rw [hu]
    rfl
  · intro data stride hs
    simp [MeshData.count, hs]

/-- C10 witness: `add_mesh` marshalling panics at the concrete declaration
whose position data has stride 0. -/
theorem C10_zero_stride_amended_witness : add_mesh_marshal declPos0 = none :=
  C10_zero_stride_amended.1 declPos0 [] (by decide)
